import Mathlib

/-! reactor-sim: the control loop of `reactor.cpp`

A shallow embedding of `main` in `src/reactor.cpp`.  The local variables of
`main` become the fields of `Vars`; the body of the `while (running)` loop is
split into the blocks the source separates by comments, one definition per
block, and the two `std::getline` prompts become the two phases of a
transition system driven by a list of inputs.

The blocks are written once, over any number type with the operations the
source uses, and read at two types.  At `Dbl` they are the program: a `double`
is a rational, an infinity or NaN, with the arithmetic and the comparisons of
IEEE 754 on those (every comparison with NaN is false); what is left out is
rounding, overflow and the sign of zero, so every constant of the source
(`1.05`, `0.7`, `0.3`, ...) is the decimal fraction it is written as.  At `ℚ`
they are the same blocks on finite values only, where the statements about a
single tick are made; `tick_val` shows the two readings agree there.

The two `std::rand()` draws are inputs of the tick (`eventRoll` is
`std::rand() % 10`, `disasterType` is `std::rand() % 2`).  Of the text written
to `std::cout` only the meltdown message of line 131 is modelled, the one
effect of the loop body that the variables do not record.
-/

namespace Reactor

/-- A `double`: a finite value, an infinity, or NaN. -/
inductive Dbl where
  | val (q : ℚ)
  | posInf
  | negInf
  | nan
  deriving DecidableEq

namespace Dbl

/-- IEEE addition: NaN is absorbing, opposite infinities give NaN. -/
def add : Dbl → Dbl → Dbl
  | nan, _ => nan
  | _, nan => nan
  | val a, val b => val (a + b)
  | posInf, negInf => nan
  | negInf, posInf => nan
  | posInf, _ => posInf
  | _, posInf => posInf
  | negInf, _ => negInf
  | _, negInf => negInf

/-- IEEE negation. -/
def neg : Dbl → Dbl
  | nan => nan
  | val a => val (-a)
  | posInf => negInf
  | negInf => posInf

/-- IEEE subtraction. -/
def sub (x y : Dbl) : Dbl := add x (neg y)

/-- An infinity with the sign of `+∞` times the sign of `a`; NaN for `a = 0`. -/
def scaleInf (a : ℚ) : Dbl :=
  if a = 0 then nan else if 0 < a then posInf else negInf

/-- IEEE multiplication: NaN is absorbing, zero times an infinity is NaN. -/
def mul : Dbl → Dbl → Dbl
  | nan, _ => nan
  | _, nan => nan
  | val a, val b => val (a * b)
  | val a, posInf => scaleInf a
  | val a, negInf => scaleInf (-a)
  | posInf, val b => scaleInf b
  | negInf, val b => scaleInf (-b)
  | posInf, posInf => posInf
  | negInf, negInf => posInf
  | posInf, negInf => negInf
  | negInf, posInf => negInf

/-- IEEE division, zero taken as `+0`. -/
def div : Dbl → Dbl → Dbl
  | nan, _ => nan
  | _, nan => nan
  | val a, val b => if b = 0 then scaleInf a else val (a / b)
  | val _, posInf => val 0
  | val _, negInf => val 0
  | posInf, val b => if 0 ≤ b then posInf else negInf
  | negInf, val b => if 0 ≤ b then negInf else posInf
  | posInf, posInf => nan
  | posInf, negInf => nan
  | negInf, posInf => nan
  | negInf, negInf => nan

/-- IEEE `<`: false as soon as one side is NaN. -/
def lt : Dbl → Dbl → Bool
  | val a, val b => decide (a < b)
  | negInf, val _ => true
  | negInf, posInf => true
  | val _, posInf => true
  | _, _ => false

/-- IEEE `<=`: false as soon as one side is NaN. -/
def le : Dbl → Dbl → Bool
  | val a, val b => decide (a ≤ b)
  | negInf, val _ => true
  | negInf, posInf => true
  | negInf, negInf => true
  | val _, posInf => true
  | posInf, posInf => true
  | _, _ => false

instance : Add Dbl := ⟨add⟩
instance : Sub Dbl := ⟨sub⟩
instance : Mul Dbl := ⟨mul⟩
instance : Div Dbl := ⟨div⟩
instance : LT Dbl := ⟨fun x y => lt x y = true⟩
instance : LE Dbl := ⟨fun x y => le x y = true⟩
instance (x y : Dbl) : Decidable (x < y) := inferInstanceAs (Decidable (lt x y = true))
instance (x y : Dbl) : Decidable (x ≤ y) := inferInstanceAs (Decidable (le x y = true))
instance (n : ℕ) : OfNat Dbl n := ⟨val (OfNat.ofNat n)⟩
instance : OfScientific Dbl := ⟨fun m s e => val (OfScientific.ofScientific m s e)⟩

end Dbl

/-- The reactor variables declared at the top of `main` (lines 9-15), over the
number type `α`. -/
structure Vars (α : Type) where
  neutrons : α
  controlRods : α
  temperature : α
  coolant : α
  power : α
  fuel : α
  running : Bool
  deriving DecidableEq

section Blocks

variable {α : Type} [Add α] [Sub α] [Mul α] [Div α] [LT α] [∀ a b : α, Decidable (a < b)]
  [∀ n : ℕ, OfNat α n] [OfScientific α]

/-- The values the variables are initialised with (lines 9-15). -/
def initialVars : Vars α :=
  { neutrons := 1000, controlRods := 0.5, temperature := 300, coolant := 100,
    power := 0, fuel := 100, running := true }

/-- Lines 69-71: `newLevel = stod(input) / 100.0`, then the two clamps, in
the order of the source. -/
def newLevel (input : α) : α :=
  let newLevel := input / 100
  let newLevel := if newLevel < 0 then 0 else newLevel
  if newLevel > 1 then 1 else newLevel

/-- Lines 76-77: the multiplication factor for a given rod insertion. -/
def k_eff (controlRods : α) : α :=
  let k_eff := 1.05 - controlRods * 1.1
  if k_eff < 0.7 then 0.7 else k_eff

/-- Lines 72-104: the rod assignment and the physics block, statement by
statement. -/
def physics (s : Vars α) (level : α) : Vars α :=
  let controlRods := level
  let k := k_eff controlRods
  let neutrons := s.neutrons * k
  let power := neutrons * 0.1
  let fuel_eff := s.fuel / 100
  let neutrons := neutrons * fuel_eff
  let fuel := s.fuel - 0.1
  let fuel := if fuel < 0 then 0 else fuel
  let temperature := s.temperature + power * 0.01
  let coolant := s.coolant - 0.3
  let coolant := if coolant < 0 then 0 else coolant
  let temperature := temperature - 0.5
  let temperature := if coolant < 20 then temperature + 5 else temperature
  { neutrons := neutrons, controlRods := controlRods, temperature := temperature,
    coolant := coolant, power := power, fuel := fuel, running := s.running }

/-- Lines 107-118: the random event.  `eventRoll` and `disasterType` are the
two values drawn from `std::rand()`; the second one is only looked at when the
first is `0`. -/
def randomEvent (eventRoll disasterType : ℕ) (s : Vars α) : Vars α :=
  if eventRoll = 0 then
    if disasterType = 0 ∧ s.coolant > 10 then
      let coolant := s.coolant - 10
      { s with coolant := if coolant < 0 then 0 else coolant }
    else
      { s with temperature := s.temperature + 50 }
  else s

/-- Lines 121-127: the automatic SCRAM. -/
def autoScram (s : Vars α) : Vars α :=
  if (s.temperature > 1000 ∨ s.neutrons > 2000) ∧ s.running = true then
    { s with controlRods := 1, neutrons := s.neutrons * 0.05,
             temperature := s.temperature - 200, running := false }
  else s

/-- Lines 130-133: the meltdown check: the variables it leaves, and whether it
prints the meltdown message of line 131. -/
def meltdownCheck (s : Vars α) : Vars α × Bool :=
  if s.temperature > 2000 then ({ s with running := false }, true) else (s, false)

/-- Lines 121-133: SCRAM, then the meltdown check; the variables they
leave. -/
def safety (s : Vars α) : Vars α :=
  (meltdownCheck (autoScram s)).1

/-- Lines 69-133: one pass of the loop body for a parsed input, from the rod
level to the meltdown check; the variables it leaves. -/
def tick (s : Vars α) (input : α) (eventRoll disasterType : ℕ) : Vars α :=
  safety (randomEvent eventRoll disasterType (physics s (newLevel input)))

end Blocks


/-- The three modes the specification speaks of. -/
inductive OperationalMode where
  | Running
  | Shutdown
  | Melted
  deriving DecidableEq

section Modes

variable {α : Type} [Add α] [Sub α] [Mul α] [Div α] [LT α] [∀ a b : α, Decidable (a < b)]
  [∀ n : ℕ, OfNat α n] [OfScientific α]

/-- The mode the safety evaluation of lines 121-133 ends in, for the variables
`s` it starts from: `Melted` when the meltdown check prints its message,
otherwise `Running` or `Shutdown` according to the `running` flag it leaves. -/
def safetyMode (s : Vars α) : OperationalMode :=
  if (meltdownCheck (autoScram s)).2 = true then .Melted
  else if (safety s).running = true then .Running
  else .Shutdown

/-- The mode a pass of the loop body ends in (lines 69-133). -/
def tickMode (s : Vars α) (input : α) (eventRoll disasterType : ℕ) : OperationalMode :=
  safetyMode (randomEvent eventRoll disasterType (physics s (newLevel input)))

end Modes

/-- The reactor variables with finite values. -/
abbrev State := Vars ℚ

/-- The values the variables are initialised with, as finite values. -/
def initial : State := initialVars

/-- The variables read at another number type. -/
def Vars.map {α β : Type} (f : α → β) (s : Vars α) : Vars β :=
  { neutrons := f s.neutrons, controlRods := f s.controlRods, temperature := f s.temperature,
    coolant := f s.coolant, power := f s.power, fuel := f s.fuel, running := s.running }

/-- Finite values as the program holds them. -/
def lift (s : State) : Vars Dbl := s.map Dbl.val

/-- What a line read by `std::getline` can be, as far as the two prompts tell
lines apart: `"q"`, `"r"`, `"reset"`, a line `std::stod` parses, or a line it
rejects.  `std::stod` parses decimal numbers and also `"inf"` and `"nan"`, so
the parsed value is any `Dbl`. -/
inductive Line where
  | q
  | r
  | reset
  | number (v : Dbl)
  | other
  deriving DecidableEq

/-- Where the program is waiting: at the prompt of line 61, at the prompt of
line 138, or past the loop. -/
inductive Phase where
  | command
  | restart
  | ended
  deriving DecidableEq

/-- The reactor variables together with the point of control. -/
structure Config where
  st : Vars Dbl
  phase : Phase
  deriving DecidableEq

/-- One line of operator input, with the two random draws the loop body makes
if that line starts a tick. -/
structure Input where
  line : Line
  eventRoll : ℕ
  disasterType : ℕ

/-- Lines 135-148: the prompt shown when `running` is false. -/
def restartPrompt (s : Vars Dbl) (line : Line) : Config :=
  match line with
  | .reset => { st := { s with running := true, temperature := 300, controlRods := 1 },
                phase := .command }
  | _ => { st := s, phase := .ended }

/-- Lines 61-133 and the loop test: the prompt of line 61.  `"q"` leaves the
loop, `"r"` refills and prompts again, a line `std::stod` parses runs the tick
on the parsed value, NaN included; `std::stod` throws on any other line and the
program ends there. -/
def commandPrompt (s : Vars Dbl) (i : Input) : Config :=
  match i.line with
  | .q => { st := s, phase := .ended }
  | .r => { st := { s with coolant := 100 }, phase := .command }
  | .number v =>
    let s1 := tick s v i.eventRoll i.disasterType
    { st := s1, phase := if s1.running = true then .command else .restart }
  | _ => { st := s, phase := .ended }

/-- One line of input consumed by the program. -/
def step (c : Config) (i : Input) : Config :=
  match c.phase with
  | .command => commandPrompt c.st i
  | .restart => restartPrompt c.st i.line
  | .ended => c

/-- The program started on a list of inputs. -/
def run (c : Config) (inputs : List Input) : Config :=
  inputs.foldl step c

/-- The configuration at the first prompt. -/
def start : Config := { st := initialVars, phase := .command }

/-- The bounds the variables satisfy at a prompt as long as they are
finite. -/
def Safe (s : State) : Prop :=
  0 ≤ s.neutrons ∧ s.neutrons ≤ 2000 ∧ s.temperature ≤ 1000 ∧
  0 ≤ s.coolant ∧ s.coolant ≤ 100 ∧ 0 ≤ s.fuel ∧ s.fuel ≤ 100 ∧ 0 ≤ s.power

/-- Coolant and fuel are finite and between `0` and `100`. -/
def Tanks (s : Vars Dbl) : Prop :=
  ∃ c f : ℚ, s.coolant = .val c ∧ s.fuel = .val f ∧ 0 ≤ c ∧ c ≤ 100 ∧ 0 ≤ f ∧ f ≤ 100

/-- No NaN has been typed: the variables are finite, within the bounds of
`Safe`, and `running` is set whenever the program waits at the command
prompt. -/
def Clean (c : Config) : Prop :=
  ∃ s : State, c.st = lift s ∧ Safe s ∧ (c.phase = .command → s.running = true)

/-- A NaN has been typed: neutrons, temperature and power are NaN, the reactor
is running and the program is not at the restart prompt. -/
def Poisoned (c : Config) : Prop :=
  c.st.neutrons = .nan ∧ c.st.temperature = .nan ∧ c.st.power = .nan ∧
  c.st.running = true ∧ c.phase ≠ .restart ∧ Tanks c.st

/-- The invariant of the loop. -/
def Inv (c : Config) : Prop := Clean c ∨ Poisoned c

/-- The input line `0` with no random event drawn. -/
def zeroRods : Input := { line := .number 0, eventRoll := 1, disasterType := 0 }

/-- The input line `nan` with no random event drawn. -/
def nanLine : Input := { line := .number .nan, eventRoll := 1, disasterType := 0 }

/-- A running reactor just over the neutron limit, as the safety evaluation
may find it. -/
def overLimit : State :=
  { neutrons := 2100, controlRods := 0, temperature := 301.6, coolant := 99.7,
    power := 210, fuel := 99.9, running := true }

/-- A running reactor hotter than any SCRAM can cool below the meltdown
threshold. -/
def overheated : State :=
  { neutrons := 1000, controlRods := 0.5, temperature := 2300, coolant := 100,
    power := 0, fuel := 100, running := true }

/-- The program after `n` input lines `0`, no random event on any tick and
no other input in between. -/
def zeroRun (n : ℕ) : Config := run start (List.replicate n zeroRods)

/-- Five times a refill followed by `201` ticks with the command `100`, no
random event on any tick: `1005` ticks during which the coolant stays above
`20` and no SCRAM fires. -/
def longRun : List Input :=
  (List.replicate 5 ({ line := .r, eventRoll := 1, disasterType := 0 } ::
    List.replicate 201 { line := .number 100, eventRoll := 1, disasterType := 0 })).flatten

/-! ## The two readings agree on finite values -/

namespace Dbl

theorem val_add (a b : ℚ) : val a + val b = val (a + b) := rfl
theorem val_sub (a b : ℚ) : val a - val b = val (a - b) := by
  show val (a + -b) = val (a - b)
  rw [sub_eq_add_neg]
theorem val_mul (a b : ℚ) : val a * val b = val (a * b) := rfl
theorem val_div_hundred (a : ℚ) : val a / val 100 = val (a / 100) := by
  show (if (100 : ℚ) = 0 then scaleInf a else val (a / 100)) = val (a / 100)
  rw [if_neg (by norm_num)]
theorem val_lt (a b : ℚ) : val a < val b ↔ a < b := by
  show decide (a < b) = true ↔ a < b
  simp
theorem val_le (a b : ℚ) : val a ≤ val b ↔ a ≤ b := by
  show decide (a ≤ b) = true ↔ a ≤ b
  simp
theorem ofNat_eq (n : ℕ) : (OfNat.ofNat n : Dbl) = val (OfNat.ofNat n) := rfl
theorem ofScientific_eq (m : ℕ) (s : Bool) (e : ℕ) :
    (OfScientific.ofScientific m s e : Dbl) = val (OfScientific.ofScientific m s e) := rfl

end Dbl

theorem newLevel_val (v : ℚ) : newLevel (Dbl.val v) = Dbl.val (newLevel v) := by
  unfold newLevel
  simp only [Dbl.ofNat_eq, Dbl.val_div_hundred, Dbl.val_lt, gt_iff_lt, ← apply_ite Dbl.val]

theorem k_eff_val (r : ℚ) : k_eff (Dbl.val r) = Dbl.val (k_eff r) := by
  unfold k_eff
  simp only [Dbl.ofScientific_eq, Dbl.val_mul, Dbl.val_sub, Dbl.val_lt]
  split_ifs <;> rfl

theorem physics_val (s : State) (r : ℚ) : physics (lift s) (Dbl.val r) = lift (physics s r) := by
  unfold physics
  simp only [lift, Vars.map, k_eff_val, Dbl.ofNat_eq, Dbl.val_div_hundred, Dbl.ofScientific_eq,
    Dbl.val_mul, Dbl.val_sub, Dbl.val_add, Dbl.val_lt, ← apply_ite Dbl.val]

theorem randomEvent_val (e d : ℕ) (s : State) :
    randomEvent e d (lift s) = lift (randomEvent e d s) := by
  unfold randomEvent
  simp only [lift, Vars.map, Dbl.ofNat_eq, Dbl.val_sub, Dbl.val_add, Dbl.val_lt, gt_iff_lt]
  split_ifs <;> simp [apply_ite Dbl.val]

theorem autoScram_val (s : State) : autoScram (lift s) = lift (autoScram s) := by
  unfold autoScram
  simp only [lift, Vars.map, Dbl.ofNat_eq, Dbl.ofScientific_eq, Dbl.val_sub, Dbl.val_mul,
    Dbl.val_lt, gt_iff_lt]
  split_ifs <;> rfl

theorem meltdownCheck_val (s : State) :
    meltdownCheck (lift s) = ((lift (meltdownCheck s).1), (meltdownCheck s).2) := by
  unfold meltdownCheck
  simp only [lift, Vars.map, Dbl.ofNat_eq, Dbl.val_lt, gt_iff_lt]
  split_ifs <;> rfl

theorem tick_val (s : State) (v : ℚ) (e d : ℕ) :
    tick (lift s) (Dbl.val v) e d = lift (tick s v e d) := by
  unfold tick safety
  rw [newLevel_val, physics_val, randomEvent_val, autoScram_val, meltdownCheck_val]


/-! ## Clamps and the safety evaluation -/

theorem newLevel_nonneg (input : ℚ) : 0 ≤ newLevel input := by
  unfold newLevel
  simp only
  split_ifs <;> linarith

theorem newLevel_le_one (input : ℚ) : newLevel input ≤ 1 := by
  unfold newLevel
  simp only
  split_ifs <;> linarith

theorem k_eff_ge (controlRods : ℚ) : 0.7 ≤ k_eff controlRods := by
  unfold k_eff
  simp only
  split_ifs <;> linarith

theorem k_eff_le (controlRods : ℚ) (h : 0 ≤ controlRods) : k_eff controlRods ≤ 1.05 := by
  unfold k_eff
  simp only
  split_ifs <;> linarith

theorem safety_eq_autoScram (s : State) : safety s = autoScram s := by
  obtain ⟨n, c, t, co, p, f, r⟩ := s
  cases r
  · simp only [safety, meltdownCheck, autoScram]
    split_ifs <;> simp_all
  · by_cases hc : t > 1000 ∨ n > 2000
    · simp only [safety, meltdownCheck, autoScram, hc, and_self, if_true]
      split_ifs <;> rfl
    · have ht : ¬ t > 2000 := fun h => hc (Or.inl (by linarith))
      simp [safety, meltdownCheck, autoScram, hc, ht]

/-! ## Bounds of the physics update and of the random event -/

theorem physics_bounds (s : State) (level : ℚ) (hl : 0 ≤ level) (h : Safe s) :
    0 ≤ (physics s level).neutrons ∧ (physics s level).neutrons ≤ 2100 ∧
    (physics s level).temperature ≤ 1006.6 ∧
    0 ≤ (physics s level).coolant ∧ (physics s level).coolant ≤ 100 ∧
    0 ≤ (physics s level).fuel ∧ (physics s level).fuel ≤ 100 ∧
    0 ≤ (physics s level).power ∧ (physics s level).running = s.running := by
  obtain ⟨hn0, hn, ht, hc0, hc, hf0, hf, _⟩ := h
  have hk0 := k_eff_ge level
  have hk1 := k_eff_le level hl
  have hnk0 : 0 ≤ s.neutrons * k_eff level := mul_nonneg hn0 (by linarith)
  have hnk : s.neutrons * k_eff level ≤ 2100 := by nlinarith
  have hfe0 : 0 ≤ s.fuel / 100 := by positivity
  have hfe1 : s.fuel / 100 ≤ 1 := by linarith
  have hnn : s.neutrons * k_eff level * (s.fuel / 100) ≤ 2100 := by nlinarith
  refine ⟨mul_nonneg hnk0 hfe0, hnn, ?_, ?_, ?_, ?_, ?_, ?_, rfl⟩
  · show (if (if s.coolant - 0.3 < 0 then 0 else s.coolant - 0.3) < 20
        then s.temperature + s.neutrons * k_eff level * 0.1 * 0.01 - 0.5 + 5
        else s.temperature + s.neutrons * k_eff level * 0.1 * 0.01 - 0.5) ≤ 1006.6
    split_ifs <;> linarith
  · show 0 ≤ (if s.coolant - 0.3 < 0 then 0 else s.coolant - 0.3)
    split_ifs <;> linarith
  · show (if s.coolant - 0.3 < 0 then 0 else s.coolant - 0.3) ≤ 100
    split_ifs <;> linarith
  · show 0 ≤ (if s.fuel - 0.1 < 0 then 0 else s.fuel - 0.1)
    split_ifs <;> linarith
  · show (if s.fuel - 0.1 < 0 then 0 else s.fuel - 0.1) ≤ 100
    split_ifs <;> linarith
  · show 0 ≤ s.neutrons * k_eff level * 0.1
    linarith

theorem randomEvent_bounds (eventRoll disasterType : ℕ) (s : State)
    (hc0 : 0 ≤ s.coolant) (hc : s.coolant ≤ 100) :
    (randomEvent eventRoll disasterType s).neutrons = s.neutrons ∧
    (randomEvent eventRoll disasterType s).temperature ≤ s.temperature + 50 ∧
    0 ≤ (randomEvent eventRoll disasterType s).coolant ∧
    (randomEvent eventRoll disasterType s).coolant ≤ 100 ∧
    (randomEvent eventRoll disasterType s).fuel = s.fuel ∧
    (randomEvent eventRoll disasterType s).power = s.power ∧
    (randomEvent eventRoll disasterType s).running = s.running := by
  unfold randomEvent
  split_ifs with h1 h2
  · refine ⟨rfl, by simp, ?_, ?_, rfl, rfl, rfl⟩
    · show 0 ≤ (if s.coolant - 10 < 0 then 0 else s.coolant - 10)
      split_ifs <;> linarith [h2.2]
    · show (if s.coolant - 10 < 0 then 0 else s.coolant - 10) ≤ 100
      split_ifs <;> linarith
  · exact ⟨rfl, le_refl _, hc0, hc, rfl, rfl, rfl⟩
  · exact ⟨rfl, by linarith, hc0, hc, rfl, rfl, rfl⟩

/-! ## Scenario A -/

/-- C1, as the specification states it: the values the scenario lists are not
the ones the tick produces; `1.05 - 0.5 * 1.1 = 0.5` lies below the floor of
line 77, so the factor is `0.7` and the population `700`. -/
theorem scenarioA_as_stated_fails :
    ¬ ((tick initial 50 1 0).controlRods = 0.5 ∧ k_eff (newLevel (50 : ℚ)) = 0.5 ∧
        (tick initial 50 1 0).neutrons = 500 ∧ (tick initial 50 1 0).power = 50 ∧
        (tick initial 50 1 0).fuel = 99.9 ∧ (tick initial 50 1 0).temperature = 299.5 ∧
        (tick initial 50 1 0).coolant = 99.7) := by
  norm_num [tick, safety, meltdownCheck, autoScram, randomEvent, physics, newLevel, k_eff,
    initial, initialVars]

/-- C1, amended: one tick from the initial state with the input `50` and no
random event (`eventRoll ≠ 0`) leaves rods `0.5`, uses `k_eff = 0.7`, and gives
neutrons `700`, power `70`, fuel `99.9`, temperature `300.2`, coolant `99.7`,
with the reactor still running. -/
theorem scenarioA (eventRoll disasterType : ℕ) (hno : eventRoll ≠ 0) :
    k_eff (newLevel (50 : ℚ)) = 0.7 ∧
    tick initial 50 eventRoll disasterType =
      { neutrons := 700, controlRods := 0.5, temperature := 300.2, coolant := 99.7,
        power := 70, fuel := 99.9, running := true } := by
  constructor
  · norm_num [newLevel, k_eff]
  · norm_num [tick, safety, meltdownCheck, autoScram, randomEvent, physics, newLevel, k_eff,
      initial, initialVars, hno]

theorem scenarioA_witness :
    (1 : ℕ) ≠ 0 ∧ k_eff (newLevel (50 : ℚ)) = 0.7 ∧
    tick initial 50 1 0 =
      { neutrons := 700, controlRods := 0.5, temperature := 300.2, coolant := 99.7,
        power := 70, fuel := 99.9, running := true } :=
  ⟨by decide, scenarioA 1 0 (by decide)⟩


/-! ## Rod insertion after a tick -/

/-- C3: for a running reactor the safety evaluation of lines 121-133 takes
the shutdown branch, clearing `running`, exactly when the temperature exceeds
`1000` or the population exceeds `2000`; it then sets the rods to `1`,
multiplies the population by `0.05`, lowers the temperature by `200` and leaves
coolant, fuel and power as they were; otherwise it returns the state unchanged,
still running.  (The program keeps one flag for the mode: shutdown is
`running = false`.  Whether the meltdown message follows as well is the subject
of `meltdown_after_scram`.) -/
theorem safety_from_running (s : State) (hrun : s.running = true) :
    ((safety s).running = false ↔ (s.temperature > 1000 ∨ s.neutrons > 2000)) ∧
    ((s.temperature > 1000 ∨ s.neutrons > 2000) →
      safety s = { neutrons := s.neutrons * 0.05, controlRods := 1,
                   temperature := s.temperature - 200, coolant := s.coolant,
                   power := s.power, fuel := s.fuel, running := false }) ∧
    (¬ (s.temperature > 1000 ∨ s.neutrons > 2000) →
      safety s = s ∧ (safety s).running = true) := by
  rw [safety_eq_autoScram]
  unfold autoScram
  by_cases hc : s.temperature > 1000 ∨ s.neutrons > 2000
  · simp only [hc, hrun, and_self, if_true, true_iff, not_true, true_implies, false_implies,
      and_true]
  · simp only [hc, false_and, if_false, hrun, not_false_eq_true, true_implies, false_implies,
      and_true, true_and]
    simp

theorem safety_from_running_witness :
    overLimit.running = true ∧ (safety overLimit).running = false ∧
    safety overLimit =
      { neutrons := 105, controlRods := 1, temperature := 101.6, coolant := 99.7,
        power := 210, fuel := 99.9, running := false } := by
  have h := safety_from_running overLimit rfl
  have hc : overLimit.temperature > 1000 ∨ overLimit.neutrons > 2000 :=
    Or.inr (by norm_num [overLimit])
  refine ⟨rfl, h.1.2 hc, ?_⟩
  rw [h.2.1 hc]
  norm_num [overLimit]


/-! ## The physics update in closed form -/

theorem k_eff_eq_max (controlRods : ℚ) :
    k_eff controlRods = max 0.7 (1.05 - 1.1 * controlRods) := by
  unfold k_eff
  simp only
  split_ifs with h
  · rw [max_eq_left (by linarith)]
  · rw [max_eq_right (by linarith)]
    ring

/-- C12: when no event is rolled (`eventRoll ≠ 0`) the state is unchanged; a
rolled coolant leak (`disasterType = 0`) with coolant above `10` lowers the
coolant by exactly `10` and leaves the temperature alone; a rolled coolant leak
with coolant at most `10` leaves the coolant alone and raises the temperature
by `50`; a rolled power surge (`disasterType ≠ 0`) raises the temperature by
`50` and leaves the coolant alone whatever its level.  No outcome changes
neutrons, fuel or rods (nor power or `running`). -/
theorem event_application (eventRoll disasterType : ℕ) (s : State) :
    (eventRoll ≠ 0 → randomEvent eventRoll disasterType s = s) ∧
    (s.coolant > 10 → randomEvent 0 0 s = { s with coolant := s.coolant - 10 }) ∧
    (s.coolant ≤ 10 → randomEvent 0 0 s = { s with temperature := s.temperature + 50 }) ∧
    (disasterType ≠ 0 →
      randomEvent 0 disasterType s = { s with temperature := s.temperature + 50 }) ∧
    (randomEvent eventRoll disasterType s).neutrons = s.neutrons ∧
    (randomEvent eventRoll disasterType s).fuel = s.fuel ∧
    (randomEvent eventRoll disasterType s).controlRods = s.controlRods ∧
    (randomEvent eventRoll disasterType s).power = s.power ∧
    (randomEvent eventRoll disasterType s).running = s.running := by
  refine ⟨?_, ?_, ?_, ?_, ?_, ?_, ?_, ?_, ?_⟩
  · intro h
    simp [randomEvent, h]
  · intro h
    have h2 : ¬ s.coolant - 10 < 0 := by linarith
    simp [randomEvent, h, h2]
  · intro h
    have h2 : ¬ s.coolant > 10 := by linarith
    simp only [randomEvent, if_true, h2, and_false, if_false]
  · intro h
    simp [randomEvent, h]
  all_goals
    unfold randomEvent
    split_ifs <;> rfl

theorem event_application_witness :
    randomEvent 3 0 initial = initial ∧
    randomEvent 0 0 initial = { initial with coolant := 90 } ∧
    randomEvent 0 0 { initial with coolant := 10 }
      = { initial with coolant := 10, temperature := 350 } ∧
    randomEvent 0 1 initial = { initial with temperature := 350 } := by
  refine ⟨(event_application 3 0 initial).1 (by decide), ?_, ?_, ?_⟩
  · rw [(event_application 0 0 initial).2.1 (by norm_num [initial, initialVars])]
    norm_num [initial, initialVars]
  · rw [(event_application 0 0 { initial with coolant := 10 }).2.2.1 (by norm_num)]
    norm_num [initial, initialVars]
  · rw [(event_application 0 1 initial).2.2.2.1 (by decide)]
    norm_num [initial, initialVars]


/-! ## The random event leaves neutrons and power alone -/

theorem randomEvent_neutrons (eventRoll disasterType : ℕ) (s : State) :
    (randomEvent eventRoll disasterType s).neutrons = s.neutrons := by
  unfold randomEvent
  split_ifs <;> rfl

theorem randomEvent_power (eventRoll disasterType : ℕ) (s : State) :
    (randomEvent eventRoll disasterType s).power = s.power := by
  unfold randomEvent
  split_ifs <;> rfl

/-! ## Reactivity falls as the rods go in -/

theorem k_eff_antitone (r₁ r₂ : ℚ) (h : r₁ ≤ r₂) : k_eff r₂ ≤ k_eff r₁ := by
  unfold k_eff
  simp only
  split_ifs <;> linarith

theorem newLevel_mono (a b : ℚ) (h : a ≤ b) : newLevel a ≤ newLevel b := by
  unfold newLevel
  simp only
  split_ifs <;> linarith

/-- C15: `k_eff` is `max(0.7, 1.05 - 1.1 * rods)`, it does not increase when
the rod insertion increases, and it lies between `0.7` and `1.05` for every
insertion between `0` and `1`; so for a state with non-negative population and
fuel, of two commands the larger one gives a population and a power after the
physics update (and still after the random event, on entry to the safety
evaluation) that are no larger than those of the smaller one. -/
theorem k_eff_monotone (s : State) (a b : ℚ) (eventRoll disasterType : ℕ)
    (hn : 0 ≤ s.neutrons) (hf : 0 ≤ s.fuel) (hab : a ≤ b) :
    (∀ r : ℚ, k_eff r = max 0.7 (1.05 - 1.1 * r)) ∧
    (∀ r₁ r₂ : ℚ, r₁ ≤ r₂ → k_eff r₂ ≤ k_eff r₁) ∧
    (∀ r : ℚ, 0 ≤ r → r ≤ 1 → 0.7 ≤ k_eff r ∧ k_eff r ≤ 1.05) ∧
    (physics s (newLevel b)).neutrons ≤ (physics s (newLevel a)).neutrons ∧
    (physics s (newLevel b)).power ≤ (physics s (newLevel a)).power ∧
    (randomEvent eventRoll disasterType (physics s (newLevel b))).neutrons
      ≤ (randomEvent eventRoll disasterType (physics s (newLevel a))).neutrons ∧
    (randomEvent eventRoll disasterType (physics s (newLevel b))).power
      ≤ (randomEvent eventRoll disasterType (physics s (newLevel a))).power := by
  have hk : k_eff (newLevel b) ≤ k_eff (newLevel a) :=
    k_eff_antitone _ _ (newLevel_mono a b hab)
  have hfe : 0 ≤ s.fuel / 100 := by positivity
  have hnk : s.neutrons * k_eff (newLevel b) ≤ s.neutrons * k_eff (newLevel a) :=
    mul_le_mul_of_nonneg_left hk hn
  have hN : (physics s (newLevel b)).neutrons ≤ (physics s (newLevel a)).neutrons := by
    show s.neutrons * k_eff (newLevel b) * (s.fuel / 100)
      ≤ s.neutrons * k_eff (newLevel a) * (s.fuel / 100)
    exact mul_le_mul_of_nonneg_right hnk hfe
  have hP : (physics s (newLevel b)).power ≤ (physics s (newLevel a)).power := by
    show s.neutrons * k_eff (newLevel b) * 0.1 ≤ s.neutrons * k_eff (newLevel a) * 0.1
    linarith
  refine ⟨k_eff_eq_max, k_eff_antitone, fun r h0 _ => ⟨k_eff_ge r, k_eff_le r h0⟩, hN, hP,
    ?_, ?_⟩
  · rw [randomEvent_neutrons, randomEvent_neutrons]
    exact hN
  · rw [randomEvent_power, randomEvent_power]
    exact hP

theorem k_eff_monotone_witness :
    (0 : ℚ) ≤ initial.neutrons ∧ (0 : ℚ) ≤ initial.fuel ∧ (0 : ℚ) ≤ 50 ∧
    k_eff (0 : ℚ) = 1.05 ∧ k_eff (1 : ℚ) = 0.7 ∧
    (physics initial (newLevel 50)).neutrons ≤ (physics initial (newLevel 0)).neutrons ∧
    (physics initial (newLevel 50)).power ≤ (physics initial (newLevel 0)).power := by
  have h := k_eff_monotone initial 0 50 1 0 (by norm_num [initial, initialVars]) (by norm_num [initial, initialVars])
    (by norm_num)
  refine ⟨by norm_num [initial, initialVars], by norm_num [initial, initialVars], by norm_num, ?_, ?_, h.2.2.2.1,
    h.2.2.2.2.1⟩
  · rw [h.1 0]
    norm_num
  · rw [h.1 1]
    norm_num


/-! ## The meltdown check -/

theorem preSafety_running (s : State) (level : ℚ) (eventRoll disasterType : ℕ) :
    (randomEvent eventRoll disasterType (physics s level)).running = s.running := by
  unfold randomEvent
  split_ifs <;> rfl

theorem safetyMode_cases (p : State) (hrun : p.running = true) :
    (safetyMode p = .Melted ↔ (autoScram p).temperature > 2000) ∧
    (safetyMode p = .Melted ↔ p.temperature > 2200) ∧
    (2000 < p.temperature → p.temperature ≤ 2200 →
      (safety p).temperature ≤ 2000 ∧ safetyMode p = .Shutdown) ∧
    (2200 < p.temperature → safetyMode p = .Melted) := by
  have hmode : safetyMode p = .Melted ↔ (autoScram p).temperature > 2000 := by
    unfold safetyMode meltdownCheck
    split_ifs <;> simp_all
  have htemp : (autoScram p).temperature > 2000 ↔ p.temperature > 2200 := by
    unfold autoScram
    by_cases hc : p.temperature > 1000 ∨ p.neutrons > 2000
    · simp only [hc, hrun, and_self, if_true]
      constructor <;> intro h <;> linarith
    · have h1 : ¬ p.temperature > 1000 := fun h => hc (Or.inl h)
      simp only [hc, false_and, if_false]
      constructor <;> intro h <;> linarith
  refine ⟨hmode, hmode.trans htemp, ?_, fun h => (hmode.trans htemp).2 h⟩
  intro h1 h2
  have hnot : ¬ (autoScram p).temperature > 2000 := fun h => by
    have := htemp.1 h
    linarith
  have hstop : (autoScram p).running = false := by
    unfold autoScram
    rw [if_pos ⟨Or.inl (by linarith), hrun⟩]
  rw [safety_eq_autoScram]
  refine ⟨le_of_not_lt hnot, ?_⟩
  unfold safetyMode
  rw [safety_eq_autoScram]
  unfold meltdownCheck
  rw [if_neg hnot, hstop]
  simp

/-- C4: for a running reactor entering the safety evaluation, the pass ends in
`Melted` (the meltdown check of lines 130-133 prints its message) exactly when
the temperature left by the SCRAM step exceeds `2000`, which is exactly when
the temperature before it exceeds `2200`; for a temperature above `2000` and at
most `2200` the SCRAM leaves at most `2000` and the pass ends in `Shutdown`,
above `2200` it ends in `Melted`.  The same holds of a whole tick, with the
temperature the physics update and the random event leave. -/
theorem meltdown_after_scram (s : State) (hrun : s.running = true) :
    ((meltdownCheck (autoScram s)).2 = true ↔ (autoScram s).temperature > 2000) ∧
    (safetyMode s = .Melted ↔ (autoScram s).temperature > 2000) ∧
    (safetyMode s = .Melted ↔ s.temperature > 2200) ∧
    (2000 < s.temperature → s.temperature ≤ 2200 →
      (safety s).temperature ≤ 2000 ∧ safetyMode s = .Shutdown) ∧
    (2200 < s.temperature → safetyMode s = .Melted) ∧
    (∀ (input : ℚ) (eventRoll disasterType : ℕ),
      tickMode s input eventRoll disasterType = .Melted ↔
        (randomEvent eventRoll disasterType (physics s (newLevel input))).temperature
          > 2200) := by
  have h := safetyMode_cases s hrun
  refine ⟨?_, h.1, h.2.1, h.2.2.1, h.2.2.2, ?_⟩
  · unfold meltdownCheck
    split_ifs <;> simp_all
  · intro input eventRoll disasterType
    exact (safetyMode_cases _ ((preSafety_running s _ eventRoll disasterType).trans hrun)).2.1

theorem meltdown_after_scram_witness :
    overheated.running = true ∧
    safetyMode overheated = .Melted ∧
    tickMode overheated 0 1 0 = .Melted ∧
    ({ overheated with temperature := 2100 } : State).running = true ∧
    (safety { overheated with temperature := 2100 }).temperature ≤ 2000 ∧
    safetyMode { overheated with temperature := 2100 } = .Shutdown :=
  ⟨rfl,
   (meltdown_after_scram overheated rfl).2.2.2.2.1 (by norm_num [overheated]),
   ((meltdown_after_scram overheated rfl).2.2.2.2.2 0 1 0).2
     (by norm_num [overheated, randomEvent, physics, newLevel, k_eff]),
   rfl,
   ((meltdown_after_scram { overheated with temperature := 2100 } rfl).2.2.2.1
      (by norm_num) (by norm_num)).1,
   ((meltdown_after_scram { overheated with temperature := 2100 } rfl).2.2.2.1
      (by norm_num) (by norm_num)).2⟩

/-! ## NaN in the tick -/

namespace Dbl

theorem nan_mul (x : Dbl) : nan * x = nan := by cases x <;> rfl
theorem mul_nan (x : Dbl) : x * nan = nan := by cases x <;> rfl
theorem nan_add (x : Dbl) : nan + x = nan := by cases x <;> rfl
theorem add_nan (x : Dbl) : x + nan = nan := by cases x <;> rfl
theorem nan_sub (x : Dbl) : nan - x = nan := by cases x <;> rfl
theorem sub_nan (x : Dbl) : x - nan = nan := by cases x <;> rfl
theorem nan_div (x : Dbl) : nan / x = nan := by cases x <;> rfl
theorem not_nan_lt (x : Dbl) : ¬ nan < x := by cases x <;> exact Bool.false_ne_true
theorem not_lt_nan (x : Dbl) : ¬ x < nan := by cases x <;> exact Bool.false_ne_true
theorem not_nan_le (x : Dbl) : ¬ nan ≤ x := by cases x <;> exact Bool.false_ne_true
theorem not_le_nan (x : Dbl) : ¬ x ≤ nan := by cases x <;> exact Bool.false_ne_true

end Dbl

theorem newLevel_nan : newLevel Dbl.nan = Dbl.nan := by decide

theorem newLevel_posInf : newLevel Dbl.posInf = Dbl.val 1 := by decide

theorem newLevel_negInf : newLevel Dbl.negInf = Dbl.val 0 := by decide

theorem k_eff_nan : k_eff Dbl.nan = Dbl.nan := by decide

/-- Whatever is typed, the level the clamps leave is a value between `0` and
`1` or NaN. -/
theorem newLevel_cases (x : Dbl) :
    (∃ r : ℚ, 0 ≤ r ∧ r ≤ 1 ∧ newLevel x = Dbl.val r) ∨ newLevel x = Dbl.nan := by
  cases x with
  | val v => exact Or.inl ⟨newLevel v, newLevel_nonneg v, newLevel_le_one v, newLevel_val v⟩
  | posInf => exact Or.inl ⟨1, by norm_num, le_refl _, newLevel_posInf⟩
  | negInf => exact Or.inl ⟨0, le_refl _, by norm_num, newLevel_negInf⟩
  | nan => exact Or.inr newLevel_nan

/-- NaN in the population or in the rod level makes population, power and
temperature NaN. -/
theorem physics_nan (s : Vars Dbl) (level : Dbl) (h : s.neutrons = .nan ∨ level = .nan) :
    (physics s level).neutrons = .nan ∧ (physics s level).power = .nan ∧
    (physics s level).temperature = .nan := by
  have hnk : s.neutrons * k_eff level = .nan := by
    rcases h with h | h
    · rw [h, Dbl.nan_mul]
    · rw [h, k_eff_nan, Dbl.mul_nan]
  unfold physics
  simp only [hnk, Dbl.nan_mul, Dbl.add_nan, Dbl.nan_sub, Dbl.nan_add, ite_self, and_self]

/-! ## Coolant and fuel never see the rod level -/

theorem physics_tanks (s : Vars Dbl) (level : Dbl) (h : Tanks s) : Tanks (physics s level) := by
  obtain ⟨c, f, hc, hf, hc0, hc1, hf0, hf1⟩ := h
  refine ⟨if c - 0.3 < 0 then 0 else c - 0.3, if f - 0.1 < 0 then 0 else f - 0.1, ?_, ?_,
    ?_, ?_, ?_, ?_⟩
  · show (if s.coolant - 0.3 < 0 then 0 else s.coolant - 0.3) = _
    simp only [hc, Dbl.ofScientific_eq, Dbl.ofNat_eq, Dbl.val_sub, Dbl.val_lt,
      ← apply_ite Dbl.val]
  · show (if s.fuel - 0.1 < 0 then 0 else s.fuel - 0.1) = _
    simp only [hf, Dbl.ofScientific_eq, Dbl.ofNat_eq, Dbl.val_sub, Dbl.val_lt,
      ← apply_ite Dbl.val]
  all_goals split_ifs <;> linarith

theorem randomEvent_tanks (eventRoll disasterType : ℕ) (s : Vars Dbl) (h : Tanks s) :
    Tanks (randomEvent eventRoll disasterType s) := by
  obtain ⟨c, f, hc, hf, hc0, hc1, hf0, hf1⟩ := h
  unfold randomEvent
  split_ifs with h1 h2
  · refine ⟨c - 10, f, ?_, hf, ?_, by linarith, hf0, hf1⟩
    · have hgt : (10 : ℚ) < c := by
        have := h2.2
        rw [hc, gt_iff_lt, Dbl.ofNat_eq, Dbl.val_lt] at this
        exact this
      show (if s.coolant - 10 < 0 then 0 else s.coolant - 10) = _
      simp only [hc, Dbl.ofNat_eq, Dbl.val_sub, Dbl.val_lt]
      rw [if_neg (by linarith)]
    · have := h2.2
      rw [hc, gt_iff_lt, Dbl.ofNat_eq, Dbl.val_lt] at this
      linarith
  · exact ⟨c, f, hc, hf, hc0, hc1, hf0, hf1⟩
  · exact ⟨c, f, hc, hf, hc0, hc1, hf0, hf1⟩

theorem safety_tanks (s : Vars Dbl) (h : Tanks s) : Tanks (safety s) := by
  obtain ⟨c, f, hc, hf, hrest⟩ := h
  have h1 : (safety s).coolant = s.coolant := by
    unfold safety meltdownCheck autoScram
    split_ifs <;> rfl
  have h2 : (safety s).fuel = s.fuel := by
    unfold safety meltdownCheck autoScram
    split_ifs <;> rfl
  exact ⟨c, f, h1.trans hc, h2.trans hf, hrest⟩

theorem tick_tanks (s : Vars Dbl) (input : Dbl) (eventRoll disasterType : ℕ) (h : Tanks s) :
    Tanks (tick s input eventRoll disasterType) :=
  safety_tanks _ (randomEvent_tanks _ _ _ (physics_tanks _ _ h))

theorem lift_tanks (s : State) (h : Safe s) : Tanks (lift s) :=
  ⟨s.coolant, s.fuel, rfl, rfl, h.2.2.2.1, h.2.2.2.2.1, h.2.2.2.2.2.1, h.2.2.2.2.2.2.1⟩

/-- A tick on variables whose population, temperature and power are NaN, or
with NaN as the rod level, leaves all three NaN, fires no SCRAM and no
meltdown, and leaves `running` as it was. -/
theorem tick_nan (s : Vars Dbl) (input : Dbl) (eventRoll disasterType : ℕ)
    (h : (s.neutrons = .nan ∧ s.temperature = .nan) ∨ input = .nan) :
    (tick s input eventRoll disasterType).neutrons = .nan ∧
    (tick s input eventRoll disasterType).temperature = .nan ∧
    (tick s input eventRoll disasterType).power = .nan ∧
    (tick s input eventRoll disasterType).running = s.running ∧
    tickMode s input eventRoll disasterType ≠ .Melted := by
  have hp := physics_nan s (newLevel input) (by
    rcases h with h | h
    · exact Or.inl h.1
    · exact Or.inr (by rw [h, newLevel_nan]))
  have hr : (physics s (newLevel input)).running = s.running := rfl
  obtain ⟨hn, hpw, ht⟩ := hp
  have he : (randomEvent eventRoll disasterType (physics s (newLevel input))).neutrons = .nan ∧
      (randomEvent eventRoll disasterType (physics s (newLevel input))).temperature = .nan ∧
      (randomEvent eventRoll disasterType (physics s (newLevel input))).power = .nan ∧
      (randomEvent eventRoll disasterType (physics s (newLevel input))).running = s.running := by
    unfold randomEvent
    split_ifs
    · exact ⟨hn, ht, hpw, hr⟩
    · exact ⟨hn, by show (physics s (newLevel input)).temperature + 50 = _
                    rw [ht, Dbl.nan_add], hpw, hr⟩
    · exact ⟨hn, ht, hpw, hr⟩
  unfold tickMode tick
  generalize randomEvent eventRoll disasterType (physics s (newLevel input)) = p at he
  obtain ⟨en, et, ep, er⟩ := he
  have hscram : autoScram p = p := by
    unfold autoScram
    rw [if_neg]
    rintro ⟨h1 | h1, _⟩
    · rw [et] at h1
      exact Dbl.not_lt_nan _ h1
    · rw [en] at h1
      exact Dbl.not_lt_nan _ h1
  have hmelt : meltdownCheck p = (p, false) := by
    unfold meltdownCheck
    rw [if_neg]
    intro h1
    rw [et] at h1
    exact Dbl.not_lt_nan _ h1
  unfold safetyMode safety
  rw [hscram, hmelt]
  refine ⟨en, et, ep, er, ?_⟩
  simp only [Bool.false_eq_true, if_false]
  split_ifs <;> simp

/-! ## The loop invariant -/

theorem safety_val (s : State) : safety (lift s) = lift (safety s) := by
  unfold safety
  rw [autoScram_val, meltdownCheck_val]

theorem safetyMode_val (s : State) : safetyMode (lift s) = safetyMode s := by
  unfold safetyMode
  rw [safety_val, autoScram_val, meltdownCheck_val]
  rfl

theorem preSafety_bounds (s : State) (level : ℚ) (eventRoll disasterType : ℕ)
    (hl : 0 ≤ level) (h : Safe s) :
    0 ≤ (randomEvent eventRoll disasterType (physics s level)).neutrons ∧
    (randomEvent eventRoll disasterType (physics s level)).neutrons ≤ 2100 ∧
    (randomEvent eventRoll disasterType (physics s level)).temperature ≤ 1056.6 ∧
    0 ≤ (randomEvent eventRoll disasterType (physics s level)).coolant ∧
    (randomEvent eventRoll disasterType (physics s level)).coolant ≤ 100 ∧
    0 ≤ (randomEvent eventRoll disasterType (physics s level)).fuel ∧
    (randomEvent eventRoll disasterType (physics s level)).fuel ≤ 100 ∧
    0 ≤ (randomEvent eventRoll disasterType (physics s level)).power := by
  obtain ⟨pn0, pn, pt, pc0, pc, pf0, pf, pp, _⟩ := physics_bounds s level hl h
  obtain ⟨en, et, ec0, ec, ef, ep, _⟩ :=
    randomEvent_bounds eventRoll disasterType (physics s level) pc0 pc
  rw [en, ef, ep]
  exact ⟨pn0, pn, by linarith, ec0, ec, pf0, pf, pp⟩

theorem safety_safe (s : State) (level : ℚ) (eventRoll disasterType : ℕ)
    (hl : 0 ≤ level) (hrun : s.running = true) (h : Safe s) :
    Safe (safety (randomEvent eventRoll disasterType (physics s level))) := by
  obtain ⟨pn0, pn, pt, pc0, pc, pf0, pf, pp⟩ :=
    preSafety_bounds s level eventRoll disasterType hl h
  have er := (preSafety_running s level eventRoll disasterType).trans hrun
  rw [safety_eq_autoScram]
  generalize randomEvent eventRoll disasterType (physics s level) = e at *
  unfold autoScram Safe
  by_cases hcnd : e.temperature > 1000 ∨ e.neutrons > 2000
  · simp only [hcnd, er, and_self, if_true]
    refine ⟨?_, ?_, ?_, pc0, pc, pf0, pf, pp⟩ <;> linarith
  · simp only [hcnd, false_and, if_false]
    have h1 : e.temperature ≤ 1000 := not_lt.mp (fun hh => hcnd (Or.inl hh))
    have h2 : e.neutrons ≤ 2000 := not_lt.mp (fun hh => hcnd (Or.inr hh))
    exact ⟨pn0, h2, h1, pc0, pc, pf0, pf, pp⟩

theorem autoScram_temperature_le (p : State) : (autoScram p).temperature ≤ p.temperature := by
  unfold autoScram
  split_ifs
  · show p.temperature - 200 ≤ p.temperature
    linarith
  · exact le_refl _

theorem safetyMode_not_melted (p : State) (h : p.temperature ≤ 2000) :
    ¬ (safety p).temperature > 2000 ∧ safetyMode p ≠ .Melted := by
  have hle := autoScram_temperature_le p
  have hnot : ¬ (autoScram p).temperature > 2000 := by
    intro hgt
    linarith
  refine ⟨by rw [safety_eq_autoScram]; exact hnot, ?_⟩
  unfold safetyMode meltdownCheck
  rw [if_neg hnot]
  simp only [Bool.false_eq_true, if_false]
  split_ifs <;> simp

/-- The tick of the program on finite variables and a finite level is the
tick on finite values. -/
theorem tick_lift (s : State) (x : Dbl) (r : ℚ) (eventRoll disasterType : ℕ)
    (hx : newLevel x = Dbl.val r) :
    tick (lift s) x eventRoll disasterType
        = lift (safety (randomEvent eventRoll disasterType (physics s r))) ∧
    tickMode (lift s) x eventRoll disasterType
        = safetyMode (randomEvent eventRoll disasterType (physics s r)) := by
  unfold tick tickMode
  rw [hx, physics_val, randomEvent_val, safety_val, safetyMode_val]
  exact ⟨rfl, rfl⟩

theorem lift_not_gt (s : State) (h : s.temperature ≤ 2000) :
    ¬ (lift s).temperature > 2000 := by
  show ¬ (2000 : Dbl) < Dbl.val s.temperature
  rw [Dbl.ofNat_eq, Dbl.val_lt]
  linarith

/-- From a configuration that satisfies the invariant no tick, whatever is
typed and drawn, leaves a temperature above `2000` or ends in `Melted`. -/
theorem inv_not_melted (c : Config) (h : Inv c) (input : Dbl) (eventRoll disasterType : ℕ) :
    ¬ (tick c.st input eventRoll disasterType).temperature > 2000 ∧
    tickMode c.st input eventRoll disasterType ≠ .Melted := by
  have hnan : ∀ s : Vars Dbl, (s.neutrons = .nan ∧ s.temperature = .nan) ∨ input = .nan →
      ¬ (tick s input eventRoll disasterType).temperature > 2000 ∧
      tickMode s input eventRoll disasterType ≠ .Melted := by
    intro s hs
    obtain ⟨_, ht, _, _, hm⟩ := tick_nan s input eventRoll disasterType hs
    refine ⟨?_, hm⟩
    rw [ht]
    exact Dbl.not_lt_nan _
  rcases h with ⟨s, hst, hsafe, _⟩ | ⟨hn, ht, _⟩
  · rcases newLevel_cases input with ⟨r, hr0, _, hx⟩ | hx
    · obtain ⟨h1, h2⟩ := tick_lift s input r eventRoll disasterType hx
      have hb := (preSafety_bounds s r eventRoll disasterType hr0 hsafe).2.2.1
      have hm := safetyMode_not_melted (randomEvent eventRoll disasterType (physics s r))
        (by linarith)
      rw [hst, h1, h2]
      refine ⟨lift_not_gt _ ?_, hm.2⟩
      exact le_of_not_lt hm.1
    · cases input with
      | nan => exact hnan _ (Or.inr rfl)
      | val v => rw [newLevel_val] at hx; cases hx
      | posInf => rw [newLevel_posInf] at hx; cases hx
      | negInf => rw [newLevel_negInf] at hx; cases hx
  · exact hnan _ (Or.inl ⟨hn, ht⟩)

theorem inv_tanks (c : Config) (h : Inv c) : Tanks c.st := by
  rcases h with ⟨s, hst, hsafe, _⟩ | ⟨_, _, _, _, _, ht⟩
  · rw [hst]
    exact lift_tanks s hsafe
  · exact ht

theorem step_number (s : Vars Dbl) (v : Dbl) (eventRoll disasterType : ℕ) :
    step { st := s, phase := .command }
        { line := .number v, eventRoll := eventRoll, disasterType := disasterType }
      = { st := tick s v eventRoll disasterType,
          phase := if (tick s v eventRoll disasterType).running = true then .command
                   else .restart } := rfl

theorem step_clean (c : Config) (i : Input) (h : Clean c) :
    Clean (step c i) ∨ (i.line = .number .nan ∧ Poisoned (step c i)) := by
  obtain ⟨st, phase⟩ := c
  obtain ⟨line, eventRoll, disasterType⟩ := i
  obtain ⟨s, hst, hsafe, hr⟩ := h
  have hst2 : st = lift s := hst
  subst hst2
  have hended : Clean { st := lift s, phase := .ended } ∨
      (line = .number .nan ∧ Poisoned { st := lift s, phase := .ended }) :=
    Or.inl ⟨s, rfl, hsafe, fun hh => by cases hh⟩
  cases phase with
  | command =>
    have hrun : s.running = true := hr rfl
    cases line with
    | q => exact hended
    | reset => exact hended
    | other => exact hended
    | r =>
      obtain ⟨hn0, hn, ht, hc0, hc, hf0, hf, hp⟩ := hsafe
      refine Or.inl ⟨{ s with coolant := 100 }, rfl,
        ⟨hn0, hn, ht, ?_, ?_, hf0, hf, hp⟩, fun _ => hrun⟩
      · show (0 : ℚ) ≤ 100
        norm_num
      · show (100 : ℚ) ≤ 100
        norm_num
    | number v =>
      rw [step_number]
      rcases newLevel_cases v with ⟨r, hr0, _, hx⟩ | hx
      · obtain ⟨h1, _⟩ := tick_lift s v r eventRoll disasterType hx
        rw [h1]
        refine Or.inl ⟨safety (randomEvent eventRoll disasterType (physics s r)), rfl,
          safety_safe s r eventRoll disasterType hr0 hrun hsafe, ?_⟩
        intro hh
        by_contra hne
        have hne2 : ¬ (lift (safety (randomEvent eventRoll disasterType
            (physics s r)))).running = true := hne
        simp only [if_neg hne2] at hh
        cases hh
      · have hv : v = .nan := by
          cases v with
          | nan => rfl
          | val v => rw [newLevel_val] at hx; cases hx
          | posInf => rw [newLevel_posInf] at hx; cases hx
          | negInf => rw [newLevel_negInf] at hx; cases hx
        obtain ⟨hn, ht, hp, hrn, _⟩ :=
          tick_nan (lift s) v eventRoll disasterType (Or.inr hv)
        have hrun2 : (tick (lift s) v eventRoll disasterType).running = true :=
          hrn.trans hrun
        refine Or.inr ⟨by rw [hv], hn, ht, hp, hrun2, ?_,
          tick_tanks _ _ _ _ (lift_tanks s hsafe)⟩
        simp only [hrun2, if_true]
        intro hh
        cases hh
  | restart =>
    cases line with
    | q => exact hended
    | r => exact hended
    | other => exact hended
    | number v => exact hended
    | reset =>
      obtain ⟨hn0, hn, ht, hc0, hc, hf0, hf, hp⟩ := hsafe
      refine Or.inl ⟨{ s with running := true, temperature := 300, controlRods := 1 }, rfl,
        ⟨hn0, hn, ?_, hc0, hc, hf0, hf, hp⟩, fun _ => rfl⟩
      show (300 : ℚ) ≤ 1000
      norm_num
  | ended => exact hended

theorem step_poisoned (c : Config) (i : Input) (h : Poisoned c) : Poisoned (step c i) := by
  obtain ⟨st, phase⟩ := c
  obtain ⟨line, eventRoll, disasterType⟩ := i
  obtain ⟨hn, ht, hp, hrun, hphase, htanks⟩ := h
  have hended : Poisoned { st := st, phase := .ended } :=
    ⟨hn, ht, hp, hrun, (fun hh => by cases hh), htanks⟩
  cases phase with
  | restart => exact absurd rfl hphase
  | ended => exact hended
  | command =>
    cases line with
    | q => exact hended
    | reset => exact hended
    | other => exact hended
    | r =>
      obtain ⟨c, f, hc, hf, hc0, hc1, hf0, hf1⟩ := htanks
      exact ⟨hn, ht, hp, hrun, (fun hh => by cases hh),
        ⟨100, f, rfl, hf, by norm_num, le_refl _, hf0, hf1⟩⟩
    | number v =>
      rw [step_number]
      obtain ⟨hn2, ht2, hp2, hrn, _⟩ :=
        tick_nan st v eventRoll disasterType (Or.inl ⟨hn, ht⟩)
      have hrun2 : (tick st v eventRoll disasterType).running = true := hrn.trans hrun
      refine ⟨hn2, ht2, hp2, hrun2, ?_, tick_tanks _ _ _ _ htanks⟩
      simp only [hrun2, if_true]
      intro hh
      cases hh

theorem step_inv (c : Config) (i : Input) (h : Inv c) : Inv (step c i) := by
  rcases h with h | h
  · rcases step_clean c i h with h2 | h2
    · exact Or.inl h2
    · exact Or.inr h2.2
  · exact Or.inr (step_poisoned c i h)

theorem start_inv : Inv start := by
  refine Or.inl ⟨initial, rfl, ?_, fun _ => rfl⟩
  norm_num [Safe, initial, initialVars]

theorem run_inv_from (inputs : List Input) : ∀ c : Config, Inv c → Inv (run c inputs) := by
  induction inputs with
  | nil => intro c h; exact h
  | cons i rest ih =>
    intro c h
    exact ih (step c i) (step_inv c i h)

theorem run_inv (inputs : List Input) : Inv (run start inputs) :=
  run_inv_from inputs start start_inv

theorem run_clean_from (inputs : List Input) :
    ∀ c : Config, Clean c → (∀ i ∈ inputs, i.line ≠ .number .nan) → Clean (run c inputs) := by
  induction inputs with
  | nil => intro c h _; exact h
  | cons i rest ih =>
    intro c h hno
    rcases step_clean c i h with h2 | h2
    · exact ih (step c i) h2 (fun j hj => hno j (List.mem_cons_of_mem _ hj))
    · exact absurd h2.1 (hno i (List.mem_cons_self _ _))

/-- As long as no line `nan` is typed the variables stay finite and within
the bounds of `Safe`. -/
theorem run_clean (inputs : List Input) (hno : ∀ i ∈ inputs, i.line ≠ .number .nan) :
    Clean (run start inputs) :=
  run_clean_from inputs start ⟨initial, rfl, by norm_num [Safe, initial, initialVars],
    fun _ => rfl⟩ hno

theorem run_poisoned_from (inputs : List Input) :
    ∀ c : Config, Poisoned c → Poisoned (run c inputs) := by
  induction inputs with
  | nil => intro c h; exact h
  | cons i rest ih =>
    intro c h
    exact ih (step c i) (step_poisoned c i h)

/-! ## The run with the rods fully withdrawn -/

/-- C13: in the run from the initial state with the input `0` on every tick,
no refill and no random event, some tick (the eighteenth) ends in `Shutdown`
with the rods at `1` and the population at `0.05` times the value the physics
update produced on that tick; the program then waits at the restart prompt. -/
theorem scenarioB :
    ∃ n : ℕ,
      (zeroRun n).phase = .command ∧
      tickMode (zeroRun n).st 0 1 0 = .Shutdown ∧
      (tick (zeroRun n).st 0 1 0).controlRods = 1 ∧
      (tick (zeroRun n).st 0 1 0).neutrons
        = 0.05 * (physics (zeroRun n).st (newLevel 0)).neutrons ∧
      zeroRun (n + 1) = { st := tick (zeroRun n).st 0 1 0, phase := .restart } :=
  ⟨17, by decide!⟩

/-- C19: in the run from the initial state with the input `0` on every tick,
no refill and no random event, ticks `1` to `17` end with the program back at
the command prompt, the population and the temperature entering their safety
evaluation being at most `2000` and at most `1000`; on tick `18` the population
entering the safety evaluation exceeds `2000` while the temperature is still at
most `1000`, and the tick ends in a SCRAM (rods `1`, `running` cleared, restart
prompt, mode `Shutdown`). -/
theorem first_scram_on_tick_18 :
    (∀ n : Fin 17,
      (zeroRun n.val).phase = .command ∧
      (randomEvent 1 0 (physics (zeroRun n.val).st (newLevel 0))).neutrons ≤ 2000 ∧
      (randomEvent 1 0 (physics (zeroRun n.val).st (newLevel 0))).temperature ≤ 1000 ∧
      (zeroRun (n.val + 1)).phase = .command) ∧
    (randomEvent 1 0 (physics (zeroRun 17).st (newLevel 0))).neutrons > 2000 ∧
    (randomEvent 1 0 (physics (zeroRun 17).st (newLevel 0))).temperature ≤ 1000 ∧
    (zeroRun 18).phase = .restart ∧
    (zeroRun 18).st.running = false ∧
    (zeroRun 18).st.controlRods = 1 ∧
    tickMode (zeroRun 17).st 0 1 0 = .Shutdown := by
  decide!

/-! ## Reachable states -/

/-- C6, as the specification states it, fails: no list of inputs (rod
commands, NaN included, refills, resets, with any event outcome on every tick)
leads from the start to a tick that leaves a temperature above `2000` and ends
in `Melted`. -/
theorem no_meltdown_from_start :
    ¬ ∃ (inputs : List Input) (input : Dbl) (eventRoll disasterType : ℕ),
        (tick (run start inputs).st input eventRoll disasterType).temperature > 2000 ∧
        tickMode (run start inputs).st input eventRoll disasterType = .Melted := by
  rintro ⟨inputs, input, eventRoll, disasterType, hgt, _⟩
  exact (inv_not_melted _ (run_inv inputs) input eventRoll disasterType).1 hgt

/-- C6, amended: after every list of inputs from the start the temperature
does not exceed `2000`, and whatever is typed and drawn next, the tick leaves a
temperature that does not exceed `2000` and does not end in `Melted`. -/
theorem never_melted_from_start (inputs : List Input) (input : Dbl)
    (eventRoll disasterType : ℕ) :
    ¬ (run start inputs).st.temperature > 2000 ∧
    ¬ (tick (run start inputs).st input eventRoll disasterType).temperature > 2000 ∧
    tickMode (run start inputs).st input eventRoll disasterType ≠ .Melted := by
  refine ⟨?_, inv_not_melted _ (run_inv inputs) input eventRoll disasterType⟩
  rcases run_inv inputs with ⟨s, hst, hsafe, _⟩ | ⟨_, ht, _⟩
  · rw [hst]
    exact lift_not_gt s (by linarith [hsafe.2.2.1])
  · rw [ht]
    exact Dbl.not_lt_nan _

/-- C7: after every list of inputs from the start (ticks with any parsed
command and any event outcome, refills, resets) the coolant level and the fuel
level lie between `0` and `100`. -/
theorem coolant_fuel_in_range (inputs : List Input) :
    0 ≤ (run start inputs).st.coolant ∧ (run start inputs).st.coolant ≤ 100 ∧
    0 ≤ (run start inputs).st.fuel ∧ (run start inputs).st.fuel ≤ 100 := by
  obtain ⟨c, f, hc, hf, hc0, hc1, hf0, hf1⟩ := inv_tanks _ (run_inv inputs)
  rw [hc, hf]
  simp only [Dbl.ofNat_eq, Dbl.val_le]
  exact ⟨hc0, hc1, hf0, hf1⟩

/-! ## The line `nan` -/

/-- C8, the code at a failing input: the line `nan` at the first prompt runs
a tick that leaves the program at the command prompt, running, with neutrons
and power NaN, so neither is `≥ 0`. -/
theorem nan_command_neutrons_power :
    (run start [nanLine]).phase = .command ∧
    (run start [nanLine]).st.running = true ∧
    (run start [nanLine]).st.neutrons = .nan ∧
    (run start [nanLine]).st.power = .nan ∧
    ¬ (0 ≤ (run start [nanLine]).st.neutrons) ∧
    ¬ (0 ≤ (run start [nanLine]).st.power) := by
  decide!

/-- C17, the code at a failing input: after the line `nan` at the first
prompt, and after any further inputs, the reactor is running with neutrons and
temperature NaN, so `0 ≤ neutrons`, `neutrons ≤ 2000` and `temperature ≤ 1000`
all fail; the program never reaches the restart prompt again, and right after
the line `nan` it waits at the command prompt. -/
theorem nan_command_breaks_running_invariant (inputs : List Input) :
    (run start [nanLine]).phase = .command ∧
    (run start (nanLine :: inputs)).st.running = true ∧
    (run start (nanLine :: inputs)).phase ≠ .restart ∧
    ¬ (0 ≤ (run start (nanLine :: inputs)).st.neutrons) ∧
    ¬ ((run start (nanLine :: inputs)).st.neutrons ≤ 2000) ∧
    ¬ ((run start (nanLine :: inputs)).st.temperature ≤ 1000) := by
  have hfirst : Poisoned (run start [nanLine]) := by
    refine ⟨by decide!, by decide!, by decide!, by decide!, by decide!, ?_⟩
    exact inv_tanks _ (run_inv [nanLine])
  have h : Poisoned (run start (nanLine :: inputs)) :=
    run_poisoned_from inputs (run start [nanLine]) hfirst
  obtain ⟨hn, ht, _, hr, hp, _⟩ := h
  refine ⟨by decide!, hr, hp, ?_, ?_, ?_⟩
  · rw [hn]
    exact Dbl.not_le_nan _
  · rw [hn]
    exact Dbl.not_nan_le _
  · rw [ht]
    exact Dbl.not_nan_le _

/-- C18, the code at a failing input: the inputs of `longRun` (1005 ticks with
the command `100`, refilled every 201 ticks) leave the program at the command
prompt, running, with fuel `0` and neutrons `0`; the line `nan` typed there
runs a tick that leaves fuel `0` and neutrons NaN, not `0`, and the next tick
with the command `0` leaves them NaN again. -/
theorem nan_command_at_exhausted_fuel :
    (run start longRun).phase = .command ∧
    (run start longRun).st.running = true ∧
    (run start longRun).st.fuel = 0 ∧
    (run start longRun).st.neutrons = 0 ∧
    (tick (run start longRun).st .nan 1 0).fuel = 0 ∧
    (tick (run start longRun).st .nan 1 0).neutrons = .nan ∧
    (tick (run start longRun).st .nan 1 0).neutrons ≠ 0 ∧
    (run start (longRun ++ [nanLine, zeroRods])).st.fuel = 0 ∧
    (run start (longRun ++ [nanLine, zeroRods])).st.neutrons = .nan := by
  decide!

/-! ## Reset and refill -/

/-- C9: at the prompt shown after a shutdown the line `reset` sets the
temperature to `300`, the rods to `1` and `running` to true, returns to the
command prompt (the reactor is running again), and leaves neutrons, coolant,
fuel (and power) as they were. -/
theorem reset_from_shutdown (c : Config) (eventRoll disasterType : ℕ)
    (hphase : c.phase = .restart) :
    (step c { line := .reset, eventRoll := eventRoll, disasterType := disasterType }).st
      = { neutrons := c.st.neutrons, controlRods := 1, temperature := 300,
          coolant := c.st.coolant, power := c.st.power, fuel := c.st.fuel, running := true } ∧
    (step c { line := .reset, eventRoll := eventRoll, disasterType := disasterType }).phase
      = .command ∧
    (step c { line := .reset, eventRoll := eventRoll,
              disasterType := disasterType }).st.running = true := by
  obtain ⟨st, phase⟩ := c
  subst hphase
  exact ⟨rfl, rfl, rfl⟩

theorem reset_from_shutdown_witness :
    (zeroRun 18).phase = .restart ∧
    (step (zeroRun 18) { line := .reset, eventRoll := 1, disasterType := 0 }).st
      = { neutrons := (zeroRun 18).st.neutrons, controlRods := 1, temperature := 300,
          coolant := (zeroRun 18).st.coolant, power := (zeroRun 18).st.power,
          fuel := (zeroRun 18).st.fuel, running := true } :=
  ⟨by decide!, (reset_from_shutdown (zeroRun 18) 1 0 (by decide!)).1⟩

/-- C10: at the command prompt the line `r` sets the coolant level to `100`
and nothing else: neutrons, rods, temperature, fuel, power and `running` keep
their values, the program stays at the command prompt, and the result is the
same whatever the random draws would have been (no physics, event or safety
step runs).  A second `r` changes nothing further. -/
theorem refill_only_coolant (c : Config) (eventRoll disasterType : ℕ)
    (hphase : c.phase = .command) :
    step c { line := .r, eventRoll := eventRoll, disasterType := disasterType }
      = { st := { neutrons := c.st.neutrons, controlRods := c.st.controlRods,
                  temperature := c.st.temperature, coolant := 100, power := c.st.power,
                  fuel := c.st.fuel, running := c.st.running },
          phase := .command } ∧
    step (step c { line := .r, eventRoll := eventRoll, disasterType := disasterType })
        { line := .r, eventRoll := eventRoll, disasterType := disasterType }
      = step c { line := .r, eventRoll := eventRoll, disasterType := disasterType } := by
  obtain ⟨st, phase⟩ := c
  subst hphase
  exact ⟨rfl, rfl⟩

theorem refill_only_coolant_witness :
    start.phase = .command ∧
    step (step start zeroRods) { line := .r, eventRoll := 0, disasterType := 0 }
      = { st := { neutrons := 1050, controlRods := 0, temperature := 300.55, coolant := 100,
                  power := 105, fuel := 99.9, running := true },
          phase := .command } := by
  have hstep : step start zeroRods
      = { st := { neutrons := 1050, controlRods := 0, temperature := 300.55, coolant := 99.7,
                  power := 105, fuel := 99.9, running := true },
          phase := .command } := by
    decide!
  refine ⟨rfl, ?_⟩
  rw [(refill_only_coolant (step start zeroRods) 0 0 (by rw [hstep])).1, hstep]

/-! ## Fuel only goes down -/

theorem tick_fuel_dbl (s : Vars Dbl) (input : Dbl) (eventRoll disasterType : ℕ) :
    (tick s input eventRoll disasterType).fuel
      = if s.fuel - 0.1 < 0 then 0 else s.fuel - 0.1 := by
  have h1 : ∀ p : Vars Dbl, (safety p).fuel = p.fuel := by
    intro p
    unfold safety meltdownCheck autoScram
    split_ifs <;> rfl
  have h2 : ∀ p : Vars Dbl, (randomEvent eventRoll disasterType p).fuel = p.fuel := by
    intro p
    unfold randomEvent
    split_ifs <;> rfl
  unfold tick
  rw [h1, h2]
  rfl

/-- What the fuel line of the tick does to a non-negative fuel level. -/
theorem fuel_step (x : Dbl) (hx : 0 ≤ x) :
    (if x - 0.1 < 0 then 0 else x - 0.1) ≤ x ∧ x ≤ x ∧
    (0.1 ≤ x → (if x - 0.1 < 0 then (0 : Dbl) else x - 0.1) = x - 0.1) ∧
    (x < 0.1 → (if x - 0.1 < 0 then (0 : Dbl) else x - 0.1) = 0) := by
  cases x with
  | nan => exact absurd hx (Dbl.not_le_nan _)
  | negInf => exact absurd hx (by decide)
  | posInf => decide
  | val f =>
    have hf : (0 : ℚ) ≤ f := by
      rw [Dbl.ofNat_eq, Dbl.val_le] at hx
      exact hx
    simp only [Dbl.ofScientific_eq, Dbl.ofNat_eq, Dbl.val_sub, Dbl.val_lt, Dbl.val_le,
      ← apply_ite Dbl.val, Dbl.val.injEq]
    refine ⟨?_, le_refl _, ?_, ?_⟩
    · split_ifs <;> linarith
    · intro h
      rw [if_neg (by linarith)]
    · intro h
      rw [if_pos (by linarith)]

/-- C14: for every state with a non-negative fuel level, a tick (any parsed
command, any event outcome, SCRAM or not) leaves the fuel level at or below its
previous value, lowering it by exactly `0.1` when it is at least `0.1` and to
exactly `0` otherwise; a refill and a reset leave it equal; and so no line of
input, at either prompt, raises it. -/
theorem fuel_non_increasing (c : Config) (i : Input) (input : Dbl) (eventRoll disasterType : ℕ)
    (hfuel : 0 ≤ c.st.fuel) :
    (tick c.st input eventRoll disasterType).fuel ≤ c.st.fuel ∧
    (0.1 ≤ c.st.fuel → (tick c.st input eventRoll disasterType).fuel = c.st.fuel - 0.1) ∧
    (c.st.fuel < 0.1 → (tick c.st input eventRoll disasterType).fuel = 0) ∧
    (commandPrompt c.st { line := .r, eventRoll := eventRoll,
                          disasterType := disasterType }).st.fuel = c.st.fuel ∧
    (restartPrompt c.st .reset).st.fuel = c.st.fuel ∧
    (step c i).st.fuel ≤ c.st.fuel := by
  obtain ⟨h1, hrefl, h2, h3⟩ := fuel_step c.st.fuel hfuel
  have htick : ∀ v e d, (tick c.st v e d).fuel ≤ c.st.fuel := by
    intro v e d
    rw [tick_fuel_dbl]
    exact h1
  refine ⟨htick _ _ _, ?_, ?_, rfl, rfl, ?_⟩
  · intro h
    rw [tick_fuel_dbl]
    exact h2 h
  · intro h
    rw [tick_fuel_dbl]
    exact h3 h
  · obtain ⟨st, phase⟩ := c
    obtain ⟨line, e, d⟩ := i
    cases phase <;> cases line <;>
      first
        | exact hrefl
        | exact htick _ _ _

theorem fuel_non_increasing_witness :
    (0 : Dbl) ≤ start.st.fuel ∧
    (tick start.st 0 1 0).fuel = start.st.fuel - 0.1 ∧
    (tick start.st .nan 1 0).fuel = start.st.fuel - 0.1 ∧
    (step start zeroRods).st.fuel ≤ start.st.fuel :=
  ⟨by decide!,
   (fuel_non_increasing start zeroRods 0 1 0 (by decide!)).2.1 (by decide!),
   (fuel_non_increasing start zeroRods .nan 1 0 (by decide!)).2.1 (by decide!),
   (fuel_non_increasing start zeroRods 0 1 0 (by decide!)).2.2.2.2.2⟩

/-! ## What a tick depends on -/

/-- C16: two states that agree on neutrons, temperature, coolant and fuel (and
are both running, or both not) give the same state after a tick with the same
command and event outcome, hence the same mode and the same next prompt,
whatever their power and rod insertion were before. -/
theorem tick_ignores_power_and_rods (s₁ s₂ : Vars Dbl) (input : Dbl)
    (eventRoll disasterType : ℕ)
    (hn : s₁.neutrons = s₂.neutrons) (ht : s₁.temperature = s₂.temperature)
    (hc : s₁.coolant = s₂.coolant) (hf : s₁.fuel = s₂.fuel) (hr : s₁.running = s₂.running) :
    tick s₁ input eventRoll disasterType = tick s₂ input eventRoll disasterType ∧
    tickMode s₁ input eventRoll disasterType = tickMode s₂ input eventRoll disasterType ∧
    commandPrompt s₁ { line := .number input, eventRoll := eventRoll,
                       disasterType := disasterType }
      = commandPrompt s₂ { line := .number input, eventRoll := eventRoll,
                           disasterType := disasterType } := by
  have hp : physics s₁ (newLevel input) = physics s₂ (newLevel input) := by
    unfold physics
    simp only [hn, ht, hc, hf, hr]
  have htick : tick s₁ input eventRoll disasterType = tick s₂ input eventRoll disasterType := by
    unfold tick
    rw [hp]
  refine ⟨htick, ?_, ?_⟩
  · unfold tickMode
    rw [hp]
  · simp only [commandPrompt, htick]

theorem tick_ignores_power_and_rods_witness :
    ({ start.st with power := 77, controlRods := 0.9 } : Vars Dbl).power ≠ start.st.power ∧
    ({ start.st with power := 77, controlRods := 0.9 } : Vars Dbl).controlRods
      ≠ start.st.controlRods ∧
    tick { start.st with power := 77, controlRods := 0.9 } 50 0 1 = tick start.st 50 0 1 :=
  ⟨by decide!, by decide!,
   (tick_ignores_power_and_rods { start.st with power := 77, controlRods := 0.9 } start.st
      50 0 1 rfl rfl rfl rfl rfl).1⟩

end Reactor
